import Mathlib

/-!
Shallow embedding of `ai_service.py` (WipeSure AI Residue Analyzer).

The service fabricates residue-analysis metrics with Python's `random`
module.  Randomness is modelled by passing every random draw explicitly:

* `random.uniform(a, b)` returns a float `N` with `a ≤ N ≤ b` (the
  documented contract of the Python library); such a draw becomes a `ℚ`
  parameter together with the interval hypothesis;
* `random.randint(a, b)` returns an integer in `[a, b]` inclusive; a site
  drawing from a range becomes a function `ℤ → ℤ → ℤ` constrained by
  `RandintOk`;
* `random.choice xs` becomes a draw constrained to be a member of `xs`.

Python floats are modelled as exact rationals; `round(x, 2)` is modelled
by `round2` (rounding of `100*x` to an integer — tie behaviour differs
from Python's round-half-to-even, and none of the properties proved here
depends on ties).  Python's built-in `hash` is an arbitrary function
`String → ℤ`, deterministic within a process run, passed as `strHash`.
`hash(d) % 100` uses Python's `%`, which for a positive modulus yields a
value in `[0, 100)`; Lean's `Int.emod` agrees.
-/

namespace AiService

/-- `round(x, 2)` : round to 2 decimal places. -/
def round2 (x : ℚ) : ℚ := (round (100 * x) : ℤ) / 100

/-- The device-specific variation `hash(device_id) % 100 / 100.0`
from `calculate_entropy`. -/
def device_factor (strHash : String → ℤ) (device_id : String) : ℚ :=
  ((strHash device_id % 100 : ℤ) : ℚ) / 100

/-- `ResidueAnalyzer.calculate_entropy`.  `base_entropy` is the draw of
`random.uniform(95.0, 100.0)`. -/
def calculate_entropy (strHash : String → ℤ) (base_entropy : ℚ)
    (device_id : String) : ℚ :=
  round2 (min 100 (base_entropy + device_factor strHash device_id))

/-- `ResidueAnalyzer.detect_recoverable_files`.  `randint` supplies the
draw of `random.randint(a, b)` for the range `(a, b)` actually reached. -/
def detect_recoverable_files (randint : ℤ → ℤ → ℤ) (entropy_score : ℚ) : ℤ :=
  if 99.8 ≤ entropy_score then 0
  else if 99.0 ≤ entropy_score then randint 0 2
  else if 95.0 ≤ entropy_score then randint 2 10
  else randint 10 50

/-- `ResidueAnalyzer.determine_residue_status`. -/
def determine_residue_status (entropy_score : ℚ) (recoverable_files : ℤ) :
    String :=
  if 99.8 ≤ entropy_score ∧ recoverable_files = 0 then "CLEAN"
  else if 99.0 ≤ entropy_score ∧ recoverable_files ≤ 2 then "MOSTLY_CLEAN"
  else if 95.0 ≤ entropy_score then "SOME_RESIDUE"
  else "HIGH_RESIDUE"

/-- The `classify_status` threshold table exactly as the specification's
section 4 words it, for comparison with the source's
`determine_residue_status`. -/
def classify_status_spec_table (entropy : ℚ) (recoverable : ℤ) : String :=
  if 99.8 ≤ entropy ∧ recoverable = 0 then "CLEAN"
  else if 99.0 ≤ entropy ∧ recoverable ≤ 2 then "MOSTLY_CLEAN"
  else if 95.0 ≤ entropy then "SOME_RESIDUE"
  else "HIGH_RESIDUE"

/-- Contract of `random.randint`: for `a ≤ b` the result lies in `[a, b]`. -/
def RandintOk (f : ℤ → ℤ → ℤ) : Prop :=
  ∀ a b : ℤ, a ≤ b → a ≤ f a b ∧ f a b ≤ b

/-- All random draws one call of `analyze_device` (or `quick_scan`)
consumes, one field per draw site of the source. -/
structure Draws where
  sleepDraw : ℚ
  baseEntropy : ℚ
  recoverableDraw : ℤ → ℤ → ℤ
  sectorsDraw : ℤ
  patternsFoundDraw : ℤ
  encResidueDraw : Bool
  metaTracesDraw : ℤ
  fileSigDraw : ℤ
  timeNow : ℚ
  confidenceDraw : ℚ

/-- Every draw lies in the range its `random` call guarantees. -/
def Draws.Valid (d : Draws) : Prop :=
  (2 ≤ d.sleepDraw ∧ d.sleepDraw ≤ 5) ∧
  (95 ≤ d.baseEntropy ∧ d.baseEntropy ≤ 100) ∧
  RandintOk d.recoverableDraw ∧
  (1000000 ≤ d.sectorsDraw ∧ d.sectorsDraw ≤ 5000000) ∧
  (0 ≤ d.patternsFoundDraw ∧ d.patternsFoundDraw ≤ 100) ∧
  (0 ≤ d.metaTracesDraw ∧ d.metaTracesDraw ≤ 50) ∧
  (0 ≤ d.fileSigDraw ∧ d.fileSigDraw ≤ 20) ∧
  (95 ≤ d.confidenceDraw ∧ d.confidenceDraw ≤ 99.9)

/-- The `analysis_details` record of `analyze_device`. -/
structure AnalysisDetails where
  sectors_analyzed : ℤ
  data_patterns_found : ℤ
  encryption_residue : Bool
  metadata_traces : ℤ
  file_signature_remnants : ℤ
deriving Repr, DecidableEq

/-- The result record `analyze_device` returns. -/
structure AnalysisResult where
  job_id : String
  device_id : String
  entropy_score : ℚ
  recoverable_files : ℤ
  residue_status : String
  analysis_details : AnalysisDetails
  timestamp : ℚ
  confidence_level : ℚ
deriving Repr, DecidableEq

/-- `ResidueAnalyzer.analyze_device` (the `time.sleep` duration is the
`sleepDraw`; it is reported in the HTTP layer's `slept` field). -/
def analyze_device (strHash : String → ℤ) (d : Draws)
    (job_id device_id : String) : AnalysisResult :=
  let entropy_score := calculate_entropy strHash d.baseEntropy device_id
  let recoverable_files := detect_recoverable_files d.recoverableDraw entropy_score
  let residue_status := determine_residue_status entropy_score recoverable_files
  { job_id := job_id
    device_id := device_id
    entropy_score := entropy_score
    recoverable_files := recoverable_files
    residue_status := residue_status
    analysis_details :=
      { sectors_analyzed := d.sectorsDraw
        data_patterns_found := d.patternsFoundDraw
        encryption_residue := d.encResidueDraw
        metadata_traces := d.metaTracesDraw
        file_signature_remnants := d.fileSigDraw }
    timestamp := d.timeNow
    confidence_level := d.confidenceDraw }

/-- Decoded JSON body of `POST /analyze`; `data.get(key)` yields `none`
when the key is absent. -/
structure AnalyzeReq where
  job_id : Option String
  device_id : Option String

/-- Decoded JSON body of `POST /quick-scan`. -/
structure QuickReq where
  device_id : Option String

/-- Python falsiness of `data.get(key)` for string fields: `None` (the
key was absent) and the empty string are falsy. -/
def isMissing : Option String → Bool
  | none => true
  | some s => s == ""

/-- One synthesized radar point of `GET /simulation/patterns`. -/
structure PatternPoint where
  angle : ℕ
  distance : ℚ
  intensity : ℚ
  pattern_type : String
deriving Repr, DecidableEq

/-- The JSON bodies the service responds with. -/
inductive Body where
  | analysisOk (result : AnalysisResult)
  | quickOk (entropy_score : ℚ) (recoverable_files : ℤ)
      (residue_status : String) (scan_progress : ℤ) (estimated_time : ℤ)
  | validationErr (error : String)
  | sentinel (error : String) (entropy_score : ℚ) (recoverable_files : ℤ)
      (residue_status : String)
  | quickErr (error : String)
  | patternsOk (patterns : List PatternPoint) (scan_radius : ℚ)
      (total_points : ℕ)
deriving Repr, DecidableEq

/-- An HTTP response; `slept` records the total `time.sleep` duration the
handler incurred while producing it. -/
structure HttpResponse where
  status : ℕ
  body : Body
  slept : ℚ
deriving Repr, DecidableEq

/-- Handler of `POST /analyze`.  The `try` block's only failure points
(body parsing / attribute access on a non-dict) enter as `Except.error`;
the `except` clause answers 500 with the sentinel payload. -/
def analyze_residue (strHash : String → ℤ) (d : Draws)
    (req : Except String AnalyzeReq) : HttpResponse :=
  match req with
  | .error e => ⟨500, .sentinel ("Analysis failed: " ++ e) 0 999 "ERROR", 0⟩
  | .ok data =>
    if isMissing data.job_id || isMissing data.device_id then
      ⟨400, .validationErr "Missing required parameters: job_id and device_id", 0⟩
    else
      ⟨200,
        .analysisOk (analyze_device strHash d (data.job_id.getD "")
          (data.device_id.getD "")),
        d.sleepDraw⟩

/-- Handler of `POST /quick-scan`: no sleep, `device_id` defaults to
`"unknown"`, and the `except` clause answers 500 with a bare error body. -/
def quick_scan (strHash : String → ℤ) (d : Draws)
    (req : Except String QuickReq) : HttpResponse :=
  match req with
  | .error e => ⟨500, .quickErr ("Quick scan failed: " ++ e), 0⟩
  | .ok data =>
    let device_id := data.device_id.getD "unknown"
    let entropy := calculate_entropy strHash d.baseEntropy device_id
    let recoverable := detect_recoverable_files d.recoverableDraw entropy
    let status := determine_residue_status entropy recoverable
    ⟨200, .quickOk entropy recoverable status 100 0, 0⟩

/-- The 360-point list built by `GET /simulation/patterns`; `dist i`,
`inten i` and `ptype i` are the draws of iteration `i` of the loop. -/
def pattern_list (dist inten : ℕ → ℚ) (ptype : ℕ → String) :
    List PatternPoint :=
  (List.range 360).map fun i =>
    { angle := i, distance := dist i, intensity := inten i,
      pattern_type := ptype i }

/-- Handler of `GET /simulation/patterns`. -/
def get_data_patterns (dist inten : ℕ → ℚ) (ptype : ℕ → String) :
    HttpResponse :=
  ⟨200,
    .patternsOk (pattern_list dist inten ptype) 1
      (pattern_list dist inten ptype).length,
    0⟩

/-- Contracts of the per-iteration draws of `GET /simulation/patterns`:
`random.uniform(0.1, 1.0)` (documented range `a ≤ N ≤ b`; the lower
endpoint is attainable, the upper may be reached by rounding),
`random.uniform(0, 100)` (this one is `100 * random()` with
`random() = k/2^53 < 1`, which in double precision never rounds up to
exactly `100.0`, so its range is `[0, 100)`), and `random.choice` over
the four pattern types. -/
def PatternDrawsOk (dist inten : ℕ → ℚ) (ptype : ℕ → String) : Prop :=
  (∀ i, 1/10 ≤ dist i ∧ dist i ≤ 1) ∧
  (∀ i, 0 ≤ inten i ∧ inten i < 100) ∧
  (∀ i, ptype i = "deleted_file" ∨ ptype i = "metadata" ∨
    ptype i = "free_space" ∨ ptype i = "encrypted")

/-- A degenerate but contract-satisfying `randint`: always the lower end. -/
def lowRand : ℤ → ℤ → ℤ := fun a _ => a

/-- A concrete set of draws, every one inside its contract range. -/
def someDraws : Draws where
  sleepDraw := 3
  baseEntropy := 97
  recoverableDraw := lowRand
  sectorsDraw := 2000000
  patternsFoundDraw := 5
  encResidueDraw := false
  metaTracesDraw := 3
  fileSigDraw := 1
  timeNow := 1700000000
  confidenceDraw := 98

end AiService

namespace AiService

theorem lowRand_ok : RandintOk lowRand :=
  fun _ _ h => ⟨le_refl _, h⟩

theorem round2_bounds {x : ℚ} (h1 : 95 ≤ x) (h2 : x ≤ 100) :
    95 ≤ round2 x ∧ round2 x ≤ 100 := by
  have hlo : (9500 : ℤ) ≤ round (100 * x) := by
    rw [round_eq]
    calc (9500 : ℤ) = ⌊((9500 : ℤ) : ℚ)⌋ := (Int.floor_intCast _).symm
      _ ≤ ⌊100 * x + 1 / 2⌋ := Int.floor_mono (by push_cast; linarith)
  have hhi : round (100 * x) ≤ 10000 := by
    rw [round_eq]
    have h10 : (⌊(10000 : ℚ) + 1 / 2⌋ : ℤ) = 10000 := by
      rw [Int.floor_eq_iff]
      constructor <;> norm_num
    calc ⌊100 * x + 1 / 2⌋ ≤ ⌊(10000 : ℚ) + 1 / 2⌋ := Int.floor_mono (by linarith)
      _ = 10000 := h10
  have hlo' : (9500 : ℚ) ≤ ((round (100 * x) : ℤ) : ℚ) := by exact_mod_cast hlo
  have hhi' : ((round (100 * x) : ℤ) : ℚ) ≤ 10000 := by exact_mod_cast hhi
  unfold round2
  constructor <;> linarith

theorem device_factor_bounds (strHash : String → ℤ) (dev : String) :
    0 ≤ device_factor strHash dev ∧ device_factor strHash dev < 1 := by
  have h0 : (0 : ℤ) ≤ strHash dev % 100 := Int.emod_nonneg _ (by norm_num)
  have h1 : strHash dev % 100 < 100 := Int.emod_lt_of_pos _ (by norm_num)
  have h0' : (0 : ℚ) ≤ ((strHash dev % 100 : ℤ) : ℚ) := by exact_mod_cast h0
  have h1' : ((strHash dev % 100 : ℤ) : ℚ) < 100 := by exact_mod_cast h1
  unfold device_factor
  constructor
  · positivity
  · linarith

theorem calculate_entropy_bounds (strHash : String → ℤ) {b : ℚ} (dev : String)
    (h1 : 95 ≤ b) (_h2 : b ≤ 100) :
    95 ≤ calculate_entropy strHash b dev ∧ calculate_entropy strHash b dev ≤ 100 := by
  obtain ⟨hf0, hf1⟩ := device_factor_bounds strHash dev
  unfold calculate_entropy
  exact round2_bounds (le_min (by norm_num) (by linarith)) (min_le_left _ _)

/-- Claim C1: `determine_residue_status` evaluates its branches in order
with first match winning: the result is `CLEAN` iff `entropy ≥ 99.8`
and `recoverable = 0`; otherwise `MOSTLY_CLEAN` iff `entropy ≥ 99.0` and
`recoverable ≤ 2`; otherwise `SOME_RESIDUE` iff `entropy ≥ 95.0`;
otherwise `HIGH_RESIDUE`.  In particular every `entropy ≥ 99.0` with
`recoverable > 2` yields `SOME_RESIDUE`. -/
theorem classify_status_branch_order (e : ℚ) (r : ℤ) :
    (determine_residue_status e r = "CLEAN" ↔ (99.8 ≤ e ∧ r = 0)) ∧
    (determine_residue_status e r = "MOSTLY_CLEAN" ↔
      (¬(99.8 ≤ e ∧ r = 0) ∧ (99.0 ≤ e ∧ r ≤ 2))) ∧
    (determine_residue_status e r = "SOME_RESIDUE" ↔
      (¬(99.8 ≤ e ∧ r = 0) ∧ ¬(99.0 ≤ e ∧ r ≤ 2) ∧ 95.0 ≤ e)) ∧
    (determine_residue_status e r = "HIGH_RESIDUE" ↔ e < 95.0) ∧
    (99.0 ≤ e → 2 < r → determine_residue_status e r = "SOME_RESIDUE") := by
  unfold determine_residue_status
  split_ifs with h1 h2 h3
  · refine ⟨by simp [h1], ?_, ?_, ?_, ?_⟩
    · constructor
      · intro h; exact absurd h (by decide)
      · rintro ⟨hn, -⟩; exact absurd h1 hn
    · constructor
      · intro h; exact absurd h (by decide)
      · rintro ⟨hn, -⟩; exact absurd h1 hn
    · constructor
      · intro h; exact absurd h (by decide)
      · intro h; linarith [h1.1]
    · intro _ hr; exact absurd h1.2 (by omega)
  · refine ⟨?_, by simp [h1, h2], ?_, ?_, ?_⟩
    · constructor
      · intro h; exact absurd h (by decide)
      · intro h; exact absurd h h1
    · constructor
      · intro h; exact absurd h (by decide)
      · rintro ⟨-, hn, -⟩; exact absurd h2 hn
    · constructor
      · intro h; exact absurd h (by decide)
      · intro h; linarith [h2.1]
    · intro _ hr; exact absurd h2.2 (by omega)
  · refine ⟨?_, ?_, by simp [h1, h2, h3], ?_, ?_⟩
    · constructor
      · intro h; exact absurd h (by decide)
      · intro h; exact absurd h h1
    · constructor
      · intro h; exact absurd h (by decide)
      · rintro ⟨-, h⟩; exact absurd h h2
    · constructor
      · intro h; exact absurd h (by decide)
      · intro h; linarith
    · intro _ _; rfl
  · refine ⟨?_, ?_, ?_, ?_, ?_⟩
    · constructor
      · intro h; exact absurd h (by decide)
      · intro h; exact absurd h h1
    · constructor
      · intro h; exact absurd h (by decide)
      · rintro ⟨-, h⟩; exact absurd h h2
    · constructor
      · intro h; exact absurd h (by decide)
      · rintro ⟨-, -, h⟩; exact absurd h h3
    · simp only [true_iff]; linarith [not_le.mp h3]
    · intro he _; exact absurd (by linarith : (95.0 : ℚ) ≤ e) h3

/-- Witness for C1 at the claim's own example inputs:
`entropy = 99.5, recoverable = 5` gives `SOME_RESIDUE` and
`entropy = 99.5, recoverable = 1` gives `MOSTLY_CLEAN`. -/
theorem classify_status_branch_order_witness :
    determine_residue_status 99.5 5 = "SOME_RESIDUE" ∧
    determine_residue_status 99.5 1 = "MOSTLY_CLEAN" := by
  constructor
  · exact (classify_status_branch_order 99.5 5).2.2.2.2 (by norm_num) (by norm_num)
  · exact (classify_status_branch_order 99.5 1).2.1.mpr
      ⟨by norm_num, by norm_num, by norm_num⟩

/-- Claim C2: `detect_recoverable_files` is piecewise on entropy: for
`entropy ≥ 99.8` exactly `0`; for `entropy ∈ [99.0, 99.8)` an integer in
`[0, 2]`; for `entropy ∈ [95.0, 99.0)` an integer in `[2, 10]`; for
`entropy < 95.0` an integer in `[10, 50]`. -/
theorem estimate_recoverable_ranges (f : ℤ → ℤ → ℤ) (e : ℚ)
    (hf : RandintOk f) :
    (99.8 ≤ e → detect_recoverable_files f e = 0) ∧
    (99.0 ≤ e → e < 99.8 →
      0 ≤ detect_recoverable_files f e ∧ detect_recoverable_files f e ≤ 2) ∧
    (95.0 ≤ e → e < 99.0 →
      2 ≤ detect_recoverable_files f e ∧ detect_recoverable_files f e ≤ 10) ∧
    (e < 95.0 →
      10 ≤ detect_recoverable_files f e ∧ detect_recoverable_files f e ≤ 50) := by
  unfold detect_recoverable_files
  split_ifs with h1 h2 h3
  · exact ⟨fun _ => rfl, fun _ hb => absurd h1 (not_le.mpr hb),
      fun _ hb => absurd hb (not_lt.mpr (by linarith)),
      fun hb => absurd hb (not_lt.mpr (by linarith))⟩
  · exact ⟨fun ha => absurd ha h1, fun _ _ => hf 0 2 (by norm_num),
      fun _ hb => absurd hb (not_lt.mpr h2),
      fun hb => absurd hb (not_lt.mpr (by linarith))⟩
  · exact ⟨fun ha => absurd ha h1, fun ha _ => absurd ha h2,
      fun _ _ => hf 2 10 (by norm_num),
      fun hb => absurd hb (not_lt.mpr h3)⟩
  · exact ⟨fun ha => absurd ha h1, fun ha _ => absurd ha h2,
      fun ha _ => absurd ha h3, fun _ => hf 10 50 (by norm_num)⟩

/-- Witness for C2: the lower-end `randint` satisfies the `random.randint`
contract, and at entropy `99.9` the result is exactly `0`, at `99.5` it is
in `[0, 2]`, at `97` in `[2, 10]`, at `90` in `[10, 50]`. -/
theorem estimate_recoverable_ranges_witness :
    RandintOk lowRand ∧
    detect_recoverable_files lowRand 99.9 = 0 ∧
    (0 ≤ detect_recoverable_files lowRand 99.5 ∧
      detect_recoverable_files lowRand 99.5 ≤ 2) ∧
    (2 ≤ detect_recoverable_files lowRand 97 ∧
      detect_recoverable_files lowRand 97 ≤ 10) ∧
    (10 ≤ detect_recoverable_files lowRand 90 ∧
      detect_recoverable_files lowRand 90 ≤ 50) :=
  ⟨lowRand_ok,
    (estimate_recoverable_ranges lowRand 99.9 lowRand_ok).1 (by norm_num),
    (estimate_recoverable_ranges lowRand 99.5 lowRand_ok).2.1
      (by norm_num) (by norm_num),
    (estimate_recoverable_ranges lowRand 97 lowRand_ok).2.2.1
      (by norm_num) (by norm_num),
    (estimate_recoverable_ranges lowRand 90 lowRand_ok).2.2.2 (by norm_num)⟩

/-- Claim C3: `calculate_entropy` returns, for every `device_id`, a value
in `[95.0, 100.0]`: the uniform base in `[95.0, 100.0]` plus a hash-derived
offset that is a fixed function of `device_id` and bounded in `[0, 1)`,
the sum clamped to at most `100.0` and rounded to 2 decimal places. -/
theorem compute_entropy_spec (strHash : String → ℤ) (b : ℚ) (dev : String)
    (h1 : 95 ≤ b) (h2 : b ≤ 100) :
    calculate_entropy strHash b dev =
      round2 (min 100 (b + device_factor strHash dev)) ∧
    0 ≤ device_factor strHash dev ∧ device_factor strHash dev < 1 ∧
    95 ≤ calculate_entropy strHash b dev ∧
    calculate_entropy strHash b dev ≤ 100 := by
  obtain ⟨hf0, hf1⟩ := device_factor_bounds strHash dev
  obtain ⟨hb0, hb1⟩ := calculate_entropy_bounds strHash dev h1 h2
  exact ⟨rfl, hf0, hf1, hb0, hb1⟩

/-- Witness for C3 at `strHash ≡ 7`, base `97`, device `"d1"`. -/
theorem compute_entropy_spec_witness :
    (95 : ℚ) ≤ 97 ∧ (97 : ℚ) ≤ 100 ∧
    95 ≤ calculate_entropy (fun _ => 7) 97 "d1" ∧
    calculate_entropy (fun _ => 7) 97 "d1" ≤ 100 :=
  ⟨by norm_num, by norm_num,
    (compute_entropy_spec (fun _ => 7) 97 "d1" (by norm_num) (by norm_num)).2.2.2⟩

theorem someDraws_valid : someDraws.Valid := by
  unfold Draws.Valid someDraws
  refine ⟨by norm_num, by norm_num, lowRand_ok, by norm_num, by norm_num,
    by norm_num, by norm_num, by norm_num⟩

theorem status_of_entropy_ge_95 {e : ℚ} (he : 95 ≤ e) (r : ℤ) :
    determine_residue_status e r = "CLEAN" ∨
    determine_residue_status e r = "MOSTLY_CLEAN" ∨
    determine_residue_status e r = "SOME_RESIDUE" := by
  unfold determine_residue_status
  split_ifs with h1 h2 h3
  · exact Or.inl rfl
  · exact Or.inr (Or.inl rfl)
  · exact Or.inr (Or.inr rfl)
  · norm_num at h3; linarith

theorem detect_indep {e : ℚ} (he : 95 ≤ e) (f g : ℤ → ℤ → ℤ)
    (hg : ∀ a b, ¬(a = 10 ∧ b = 50) → g a b = f a b) :
    detect_recoverable_files g e = detect_recoverable_files f e := by
  unfold detect_recoverable_files
  split_ifs with h1 h2 h3
  · rfl
  · exact hg 0 2 (by omega)
  · exact hg 2 10 (by omega)
  · norm_num at h3; linarith

/-- Claim C4: in every result of `analyze_device` and of the quick-scan
path, `residue_status` equals `determine_residue_status` applied to the
result's own `entropy_score` and `recoverable_files`, and
`determine_residue_status` coincides with the specification's section-4
threshold table. -/
theorem results_status_consistent (strHash : String → ℤ) (d : Draws)
    (jid dev : String) (q : QuickReq) :
    (analyze_device strHash d jid dev).residue_status =
      determine_residue_status (analyze_device strHash d jid dev).entropy_score
        (analyze_device strHash d jid dev).recoverable_files ∧
    quick_scan strHash d (.ok q) =
      ⟨200,
        .quickOk (calculate_entropy strHash d.baseEntropy (q.device_id.getD "unknown"))
          (detect_recoverable_files d.recoverableDraw
            (calculate_entropy strHash d.baseEntropy (q.device_id.getD "unknown")))
          (determine_residue_status
            (calculate_entropy strHash d.baseEntropy (q.device_id.getD "unknown"))
            (detect_recoverable_files d.recoverableDraw
              (calculate_entropy strHash d.baseEntropy (q.device_id.getD "unknown"))))
          100 0,
        0⟩ ∧
    (∀ e r, determine_residue_status e r = classify_status_spec_table e r) :=
  ⟨rfl, rfl, fun _ _ => rfl⟩

/-- Claim C5: `POST /analyze` with a decoded object whose `job_id` or
`device_id` is absent or empty answers 400 with the message naming the
missing fields, and the response is the same whatever the analyzer's
draws and hash function are — the analyzer is never consulted. -/
theorem analyze_missing_fields (strHash strHash' : String → ℤ)
    (d d' : Draws) (req : AnalyzeReq)
    (hm : (isMissing req.job_id || isMissing req.device_id) = true) :
    analyze_residue strHash d (.ok req) =
      ⟨400, .validationErr "Missing required parameters: job_id and device_id",
        0⟩ ∧
    analyze_residue strHash d (.ok req) = analyze_residue strHash' d' (.ok req) := by
  constructor <;> simp [analyze_residue, hm]

/-- Witness for C5: the body `{device_id: "d1"}` (no `job_id`) is rejected
with 400. -/
theorem analyze_missing_fields_witness :
    (isMissing (none : Option String) || isMissing (some "d1")) = true ∧
    analyze_residue (fun _ => 7) someDraws (.ok ⟨none, some "d1"⟩) =
      ⟨400, .validationErr "Missing required parameters: job_id and device_id",
        0⟩ :=
  ⟨by decide,
    (analyze_missing_fields (fun _ => 7) (fun _ => 7) someDraws someDraws
      ⟨none, some "d1"⟩ (by decide)).1⟩

/-- Claim C6: an exception during `POST /analyze` handling yields 500 with
the fixed sentinel body (`entropy_score 0.0`, `recoverable_files 999`,
`residue_status "ERROR"`), and on `POST /quick-scan` it yields 500 with
only an error field. -/
theorem internal_error_sentinel (strHash : String → ℤ) (d : Draws)
    (e : String) :
    analyze_residue strHash d (.error e) =
      ⟨500, .sentinel ("Analysis failed: " ++ e) 0 999 "ERROR", 0⟩ ∧
    quick_scan strHash d (.error e) =
      ⟨500, .quickErr ("Quick scan failed: " ++ e), 0⟩ :=
  ⟨rfl, rfl⟩

/-- Claim C8: `POST /quick-scan` with a body lacking `device_id` answers
200 using the literal `"unknown"` as device identifier, with zero sleep,
`scan_progress = 100` and `estimated_time = 0`. -/
theorem quick_scan_default_unknown (strHash : String → ℤ) (d : Draws) :
    quick_scan strHash d (.ok ⟨none⟩) =
      ⟨200,
        .quickOk (calculate_entropy strHash d.baseEntropy "unknown")
          (detect_recoverable_files d.recoverableDraw
            (calculate_entropy strHash d.baseEntropy "unknown"))
          (determine_residue_status
            (calculate_entropy strHash d.baseEntropy "unknown")
            (detect_recoverable_files d.recoverableDraw
              (calculate_entropy strHash d.baseEntropy "unknown")))
          100 0,
        0⟩ :=
  rfl

/-- Draws for the patterns endpoint sitting at the attainable lower
endpoint of `random.uniform(0.1, 1.0)`. -/
def cexDist : ℕ → ℚ := fun _ => 1/10

def cexInten : ℕ → ℚ := fun _ => 50

def cexPtype : ℕ → String := fun _ => "metadata"

theorem cexDraws_ok : PatternDrawsOk cexDist cexInten cexPtype :=
  ⟨fun _ => ⟨le_refl _, by norm_num [cexDist]⟩,
    fun _ => ⟨by norm_num [cexInten], by norm_num [cexInten]⟩,
    fun _ => Or.inr (Or.inl rfl)⟩

/-- Counterexample to C7 as stated: `random.uniform(0.1, 1.0)` may return
exactly `0.1` (its documented range is inclusive at both ends), and then
the produced pattern's distance lies outside the claimed open-below
interval `(0.1, 1.0]`. -/
theorem patterns_distance_interval_false :
    PatternDrawsOk cexDist cexInten cexPtype ∧
    ¬(∀ p ∈ pattern_list cexDist cexInten cexPtype,
        1/10 < p.distance ∧ p.distance ≤ 1 ∧
        0 ≤ p.intensity ∧ p.intensity < 100) := by
  refine ⟨cexDraws_ok, fun h => ?_⟩
  have hm : (⟨0, 1/10, 50, "metadata"⟩ : PatternPoint) ∈
      pattern_list cexDist cexInten cexPtype := by
    unfold pattern_list
    exact List.mem_map.mpr ⟨0, List.mem_range.mpr (by norm_num), rfl⟩
  exact absurd (h _ hm).1 (by norm_num)

/-- Claim C7 (amended): `GET /simulation/patterns` answers 200 with
exactly 360 entries whose angles are `0..359` in order (hence unique),
each distance in `[0.1, 1.0]` (closed below — the documented range of
`random.uniform(a, b)` includes `a`), each intensity in `[0, 100)`, each
pattern type one of the four enumerated values, together with
`scan_radius 1.0` and `total_points 360`. -/
theorem patterns_spec_amended (dist inten : ℕ → ℚ) (ptype : ℕ → String)
    (hOk : PatternDrawsOk dist inten ptype) :
    (get_data_patterns dist inten ptype).status = 200 ∧
    (get_data_patterns dist inten ptype).body =
      .patternsOk (pattern_list dist inten ptype) 1 360 ∧
    (pattern_list dist inten ptype).length = 360 ∧
    (pattern_list dist inten ptype).map PatternPoint.angle = List.range 360 ∧
    ∀ p ∈ pattern_list dist inten ptype,
      1/10 ≤ p.distance ∧ p.distance ≤ 1 ∧
      0 ≤ p.intensity ∧ p.intensity < 100 ∧
      (p.pattern_type = "deleted_file" ∨ p.pattern_type = "metadata" ∨
        p.pattern_type = "free_space" ∨ p.pattern_type = "encrypted") := by
  obtain ⟨hd, hi, ht⟩ := hOk
  have hlen : (pattern_list dist inten ptype).length = 360 := by
    unfold pattern_list
    rw [List.length_map, List.length_range]
  refine ⟨rfl, ?_, hlen, ?_, ?_⟩
  · unfold get_data_patterns
    rw [hlen]
  · unfold pattern_list
    rw [List.map_map]
    exact List.map_id _
  · intro p hp
    unfold pattern_list at hp
    obtain ⟨i, -, rfl⟩ := List.mem_map.mp hp
    exact ⟨(hd i).1, (hd i).2, (hi i).1, (hi i).2, ht i⟩

/-- Witness for the amended C7 at the concrete draws `cexDist`,
`cexInten`, `cexPtype`. -/
theorem patterns_spec_amended_witness :
    PatternDrawsOk cexDist cexInten cexPtype ∧
    (pattern_list cexDist cexInten cexPtype).length = 360 :=
  ⟨cexDraws_ok,
    (patterns_spec_amended cexDist cexInten cexPtype cexDraws_ok).2.2.1⟩

/-- Claim C9: the base entropy draw is at least 95, so the composed
pipeline never produces `HIGH_RESIDUE`: every successful `/analyze` and
`/quick-scan` response has `residue_status` among `CLEAN`,
`MOSTLY_CLEAN`, `SOME_RESIDUE`, and the `randint(10, 50)` draw never
influences the recoverable-file count. -/
theorem pipeline_no_high_residue (strHash : String → ℤ) (d : Draws)
    (jid dev : String) (q : QuickReq) (hv : d.Valid) :
    95 ≤ (analyze_device strHash d jid dev).entropy_score ∧
    ((analyze_device strHash d jid dev).residue_status = "CLEAN" ∨
     (analyze_device strHash d jid dev).residue_status = "MOSTLY_CLEAN" ∨
     (analyze_device strHash d jid dev).residue_status = "SOME_RESIDUE") ∧
    (analyze_device strHash d jid dev).residue_status ≠ "HIGH_RESIDUE" ∧
    ((quick_scan strHash d (.ok q)).body =
      .quickOk (calculate_entropy strHash d.baseEntropy (q.device_id.getD "unknown"))
        (detect_recoverable_files d.recoverableDraw
          (calculate_entropy strHash d.baseEntropy (q.device_id.getD "unknown")))
        (determine_residue_status
          (calculate_entropy strHash d.baseEntropy (q.device_id.getD "unknown"))
          (detect_recoverable_files d.recoverableDraw
            (calculate_entropy strHash d.baseEntropy (q.device_id.getD "unknown"))))
        100 0) ∧
    (determine_residue_status
      (calculate_entropy strHash d.baseEntropy (q.device_id.getD "unknown"))
      (detect_recoverable_files d.recoverableDraw
        (calculate_entropy strHash d.baseEntropy (q.device_id.getD "unknown")))
      ≠ "HIGH_RESIDUE") ∧
    (∀ g : ℤ → ℤ → ℤ,
      (∀ a b : ℤ, ¬(a = 10 ∧ b = 50) → g a b = d.recoverableDraw a b) →
      detect_recoverable_files g (calculate_entropy strHash d.baseEntropy dev) =
        detect_recoverable_files d.recoverableDraw
          (calculate_entropy strHash d.baseEntropy dev)) := by
  obtain ⟨-, ⟨hb1, hb2⟩, -⟩ := hv
  have hdev := (calculate_entropy_bounds strHash dev hb1 hb2).1
  have hunk := (calculate_entropy_bounds strHash (q.device_id.getD "unknown")
    hb1 hb2).1
  have hstat := status_of_entropy_ge_95 hdev
    (detect_recoverable_files d.recoverableDraw
      (calculate_entropy strHash d.baseEntropy dev))
  have hstatq := status_of_entropy_ge_95 hunk
    (detect_recoverable_files d.recoverableDraw
      (calculate_entropy strHash d.baseEntropy (q.device_id.getD "unknown")))
  refine ⟨hdev, hstat, ?_, rfl, ?_, fun g hg => detect_indep hdev _ g hg⟩
  · have hres : (analyze_device strHash d jid dev).residue_status =
        determine_residue_status (calculate_entropy strHash d.baseEntropy dev)
          (detect_recoverable_files d.recoverableDraw
            (calculate_entropy strHash d.baseEntropy dev)) := rfl
    rw [hres]
    rcases hstat with h | h | h <;> · rw [h]; decide
  · rcases hstatq with h | h | h <;> · rw [h]; decide

/-- Witness for C9 at concrete draws and devices. -/
theorem pipeline_no_high_residue_witness :
    someDraws.Valid ∧
    95 ≤ (analyze_device (fun _ => 7) someDraws "j1" "d1").entropy_score ∧
    (analyze_device (fun _ => 7) someDraws "j1" "d1").residue_status ≠
      "HIGH_RESIDUE" :=
  ⟨someDraws_valid,
    (pipeline_no_high_residue (fun _ => 7) someDraws "j1" "d1" ⟨none⟩
      someDraws_valid).1,
    (pipeline_no_high_residue (fun _ => 7) someDraws "j1" "d1" ⟨none⟩
      someDraws_valid).2.2.1⟩

/-- Claim C10: in the composed pipeline the status is `CLEAN` exactly when
the entropy score reaches `99.8`: at or above that threshold the
recoverable count is forced to `0` and the first branch fires, and below
it the `CLEAN` branch cannot fire even when the recoverable count is `0`. -/
theorem pipeline_clean_iff (f : ℤ → ℤ → ℤ) (e : ℚ) :
    (determine_residue_status e (detect_recoverable_files f e) = "CLEAN" ↔
      99.8 ≤ e) ∧
    (∀ r : ℤ, e < 99.8 → determine_residue_status e r ≠ "CLEAN") := by
  constructor
  · constructor
    · intro h
      unfold determine_residue_status at h
      split_ifs at h with h1
      · exact h1.1
      · exact absurd h (by decide)
      · exact absurd h (by decide)
      · exact absurd h (by decide)
    · intro he
      have hd : detect_recoverable_files f e = 0 := by
        unfold detect_recoverable_files
        rw [if_pos he]
      unfold determine_residue_status
      rw [if_pos ⟨he, hd⟩]
  · intro r hlt h
    unfold determine_residue_status at h
    split_ifs at h with h1
    · linarith [h1.1]
    · exact absurd h (by decide)
    · exact absurd h (by decide)
    · exact absurd h (by decide)

/-- Witness for C10: at entropy `99`, even a zero recoverable count does
not yield `CLEAN`, while at entropy `99.9` the pipeline yields `CLEAN`. -/
theorem pipeline_clean_iff_witness :
    determine_residue_status 99 0 ≠ "CLEAN" ∧
    determine_residue_status 99.9
      (detect_recoverable_files lowRand 99.9) = "CLEAN" :=
  ⟨(pipeline_clean_iff lowRand 99).2 0 (by norm_num),
    (pipeline_clean_iff lowRand 99.9).1.mpr (by norm_num)⟩

end AiService
